import Mathlib

/-!
# Verification of the `packet` cache engine (`src/core/cache.js`)

A shallow embedding of the cache engine in `src/core/cache.js`:
the item model (`Cache.CacheItem`), expiration policy (`_isExpired`),
the read/write/remove/clear operations, the purge algorithm (`_purge`),
the insertion retry logic (`_addItem`), and the two shipped storage
backends (`Cache.Basic`, `Cache.LocalStorage`).

Modelling conventions:
* JavaScript timestamps (`new Date().getTime()`) are milliseconds; the
  current time is passed explicitly as a `now : Nat` parameter.
* A JavaScript field that is absent or falsy (absent, `undefined`, `null`,
  `0`) is modelled as `none`; `some v` models a truthy field value.  The
  source only ever tests these fields for truthiness, so it cannot
  distinguish the falsy states.
* Machine floats appear only in the purge-size computation; the values
  involved (`0.75`, small integers) are exactly representable, so `ℚ`
  is an exact model.  JavaScript `x & y` converts both operands with
  `ToInt32` (truncation toward zero; the 2^32 wrap is omitted since all
  operands here are small) and `Math.round x = ⌊x + 1/2⌋`.
* Callback functions are modelled by an identifier (`Option Nat`); a
  scheduled asynchronous invocation is recorded as an entry
  `(callback id, key, value)` appended to a queue, mirroring the
  `setTimeout(..., 0)` calls in the source.
-/

namespace Packet

/-- A JavaScript value, as far as the cache engine can observe one:
keys and stored payloads.  `vNum` carries an integer (the engine never
does arithmetic on values, only truthiness tests and property-key
coercion). -/
inductive JSValue where
  | vNull
  | vUndefined
  | vBool (b : Bool)
  | vNum (n : Int)
  | vStr (s : String)
  deriving Repr, DecidableEq, Inhabited

/-- JavaScript truthiness of a value (`if (x)`). -/
def truthy : JSValue → Bool
  | JSValue.vNull => false
  | JSValue.vUndefined => false
  | JSValue.vBool b => b
  | JSValue.vNum n => n != 0
  | JSValue.vStr s => s != ""

/-- JavaScript property-key coercion (`obj[key]` converts `key` with
`ToPropertyKey`/`ToString`): `null` becomes the string `"null"`,
`undefined` becomes `"undefined"`, numbers and booleans their decimal /
literal spellings. -/
def toPropKey : JSValue → String
  | JSValue.vNull => "null"
  | JSValue.vUndefined => "undefined"
  | JSValue.vBool b => cond b "true" "false"
  | JSValue.vNum n => toString n
  | JSValue.vStr s => s

/-- `Cache.Priority.Low` (source line 18). -/
def Cache.Priority.Low : Nat := 1

/-- `Cache.Priority.Normal` (source line 19). -/
def Cache.Priority.Normal : Nat := 2

/-- `Cache.Priority.High` (source line 20). -/
def Cache.Priority.High : Nat := 3

/-- `Cache.Priority.NORMAL` — the identifier read by the default-priority
fallback on source line 128.  The enum object on lines 17–21 declares
`Low`, `Normal`, `High` but no `NORMAL`, so this property access yields
`undefined`, modelled as `none`. -/
def Cache.Priority.NORMAL : Option Nat := none

/-- The options bag accepted by `setItem` (see `Cache.CacheItem`,
source lines 117–132).  `none` models an absent-or-falsy field. -/
structure CacheOptions where
  expirationAbsolute : Option Nat := none
  expirationSliding : Option Nat := none
  priority : Option Nat := none
  callback : Option Nat := none
  deriving Repr, DecidableEq, Inhabited

/-- A constructed `Cache.CacheItem` (source lines 117–132).  The raw
`key` value is stored as given (`this.key = key`); coercion to a
property key happens at each storage access.  `expirationAbsolute`
already holds the result of `.getTime()` (milliseconds).  `priority`
is `Option Nat` because the default-priority fallback assigns the
undefined `Cache.Priority.NORMAL`. -/
structure CacheItem where
  key : JSValue
  value : JSValue
  expirationAbsolute : Option Nat
  expirationSliding : Option Nat
  priority : Option Nat
  callback : Option Nat
  lastAccessed : Nat
  deriving Repr, DecidableEq, Inhabited

/-- `new Cache.CacheItem(key, val, options)` (source lines 117–132):
throws (`none`) when the key is falsy; otherwise records the value,
the expiration options, the priority (falling back to the undefined
`Cache.Priority.NORMAL` when no truthy priority is given), the callback,
and `lastAccessed = now`. -/
def Cache.mkCacheItem (now : Nat) (key val : JSValue) (opts : CacheOptions) :
    Option CacheItem :=
  if truthy key then
    some { key := key
           value := val
           expirationAbsolute := opts.expirationAbsolute
           expirationSliding := opts.expirationSliding
           priority := match opts.priority with
             | none => Cache.Priority.NORMAL
             | some p => some p
           callback := opts.callback
           lastAccessed := now }
  else none

/-- `Cache.prototype._isExpired` (source lines 232–249): absolute
expiration is checked first; the sliding check runs only when the
absolute check did not fire.  All times are in milliseconds, so a
sliding duration of `d` seconds contributes `d * 1000`. -/
def Cache.isExpired (item : CacheItem) (now : Nat) : Bool :=
  let expiredAbs : Bool :=
    match item.expirationAbsolute with
    | some t => decide (t < now)
    | none => false
  if expiredAbs then
    true
  else
    match item.expirationSliding with
    | some d => decide (item.lastAccessed + d * 1000 < now)
    | none => false

/-- `Cache.Basic` lookup semantics (`this._items[key]`, source line 29)
over an insertion-ordered association list: the model of a plain
JavaScript object used as a map. -/
def storageGet : List (String × CacheItem) → String → Option CacheItem
  | [], _ => none
  | (k', it) :: rest, k => if k' = k then some it else storageGet rest k

/-- `Cache.Basic` assignment semantics (`this._items[key] = value`,
source line 36): overwriting keeps the property's position, a new key
is appended (JavaScript string-keyed property order is insertion
order). -/
def storageSet : List (String × CacheItem) → String → CacheItem →
    List (String × CacheItem)
  | [], k, it => [(k, it)]
  | (k', it') :: rest, k, it =>
      if k' = k then (k, it) :: rest
      else (k', it') :: storageSet rest k it

/-- `Cache.Basic` deletion semantics (`delete this._items[key]`, source
lines 39–46): returns the removed item (if any) together with the
remaining entries. -/
def storageRemove : List (String × CacheItem) → String →
    Option CacheItem × List (String × CacheItem)
  | [], _ => (none, [])
  | (k', it') :: rest, k =>
      if k' = k then (some it', rest)
      else
        let r := storageRemove rest k
        (r.1, (k', it') :: r.2)

/-- `Cache.Basic.prototype.keys` (source lines 48–54): the keys in
property order. -/
def storageKeys (l : List (String × CacheItem)) : List String :=
  l.map Prod.fst

/-- The state of a cache engine instance: the backend contents (modelled
with the in-memory `Cache.Basic` semantics, extended with the storage
contract's `size()` as the entry count — `Cache.Basic` itself fails to
define `size`, see `Cache.Basic.methods`), the `_stats` counters, the
number of purge tasks scheduled with `setTimeout` that have not yet run,
the queue of scheduled removal-callback invocations, and `_maxSize`. -/
structure CacheState where
  items : List (String × CacheItem)
  hits : Nat
  misses : Nat
  pendingPurges : Nat
  scheduledCallbacks : List (Nat × JSValue × JSValue)
  maxSize : Int
  deriving Repr, DecidableEq, Inhabited

/-- The `Cache` constructor (source lines 3–15): `maxSize || -1` maps a
falsy (zero/absent) maximum size to `-1` (unbounded); stats start at
zero. -/
def Cache.init (maxSize : Int) : CacheState :=
  { items := []
    hits := 0
    misses := 0
    pendingPurges := 0
    scheduledCallbacks := []
    maxSize := if maxSize = 0 then -1 else maxSize }

/-- `Cache.prototype.size` as specified by the storage contract
(`this._storage.size()`, source lines 228–230), over the conforming
in-memory backend model. -/
def Cache.size (s : CacheState) : Nat := s.items.length

/-- `Cache.prototype.getStats` (source lines 158–160). -/
def Cache.getStats (s : CacheState) : Nat × Nat := (s.hits, s.misses)

/-- `Cache.prototype.removeItem` (source lines 215–226): remove the
entry under the coerced key unconditionally; if the removed item has a
truthy `options.callback`, schedule an asynchronous invocation with the
item's raw key and value (`setTimeout(..., 0)`, lines 220–222); return
the removed value or `null`. -/
def Cache.removeItem (s : CacheState) (key : JSValue) : JSValue × CacheState :=
  let r := storageRemove s.items (toPropKey key)
  match r.1 with
  | none => (JSValue.vNull, { s with items := r.2 })
  | some item =>
      let s' : CacheState :=
        match item.callback with
        | some cb =>
            { s with items := r.2
                     scheduledCallbacks :=
                       s.scheduledCallbacks ++ [(cb, item.key, item.value)] }
        | none => { s with items := r.2 }
      (item.value, s')

/-- `Cache.prototype.getItem` (source lines 92–115): look the item up
under the coerced key; if present and not expired, refresh
`lastAccessed` (the source mutates the object held by the backend); if
present and expired, remove it (scheduling its callback).  The returned
value is `item.value` when a live item was found, else `null`, and the
hit/miss accounting tests the truthiness of that returned value
(line 106). -/
def Cache.getItem (s : CacheState) (now : Nat) (key : JSValue) :
    JSValue × CacheState :=
  let pk := toPropKey key
  match storageGet s.items pk with
  | none =>
      (JSValue.vNull, { s with misses := s.misses + 1 })
  | some item =>
      if Cache.isExpired item now then
        let s' := (Cache.removeItem s key).2
        (JSValue.vNull, { s' with misses := s'.misses + 1 })
      else
        let item' := { item with lastAccessed := now }
        let s' := { s with items := storageSet s.items pk item' }
        if truthy item'.value then
          (item'.value, { s' with hits := s'.hits + 1 })
        else
          (item'.value, { s' with misses := s'.misses + 1 })

/-- The error raised by the `Cache.CacheItem` constructor for a falsy
key (source lines 118–120). -/
inductive CacheError where
  | invalidKey
  deriving Repr, DecidableEq

/-- `Cache.prototype.setItem` (source lines 134–147).  Steps, in source
order: (1) if an entry exists under the coerced key, `removeItem` it —
this happens *before* the new item's key is validated; (2) construct
the `CacheItem`, which throws on a falsy key — the error is returned
together with the state as mutated so far; (3) store the item
(`_addItem`; the in-memory backend's `set` never throws, so the retry
path of lines 200–213 is unreachable here and is modelled separately by
`Cache.addItem`); (4) if `maxSize > 0` and the backend size now exceeds
it, schedule an asynchronous purge (lines 142–146). -/
def Cache.setItem (s : CacheState) (now : Nat) (key val : JSValue)
    (opts : CacheOptions) : CacheState × Option CacheError :=
  let pk := toPropKey key
  let s1 := if (storageGet s.items pk).isSome then (Cache.removeItem s key).2 else s
  match Cache.mkCacheItem now key val opts with
  | none => (s1, some CacheError.invalidKey)
  | some item =>
      let s2 := { s1 with items := storageSet s1.items (toPropKey item.key) item }
      let s3 :=
        if s2.maxSize > 0 ∧ (s2.items.length : Int) > s2.maxSize then
          { s2 with pendingPurges := s2.pendingPurges + 1 }
        else s2
      (s3, none)

/-- `Cache.prototype.clear` (source lines 149–156): snapshot the keys,
then `removeItem` each one (so each callback fires). -/
def Cache.clear (s : CacheState) : CacheState :=
  (storageKeys s.items).foldl
    (fun st k => (Cache.removeItem st (JSValue.vStr k)).2) s

/-- The fill factor `this._fillFactor = .75` (source line 9). -/
def Cache.fillFactor : ℚ := 3 / 4

/-- The floor of a rational, computed as floor division of the
numerator by the (positive) denominator — a kernel-computable
formulation of the integer floor. -/
def ratFloor (q : ℚ) : Int := Int.fdiv q.num (q.den : Int)

/-- JavaScript `ToInt32`: truncation toward zero (the `mod 2^32` wrap is
omitted; every operand in the source is far below 2^31). -/
def jsToInt32 (q : ℚ) : Int :=
  if 0 ≤ q then ratFloor q else -(ratFloor (-q))

/-- JavaScript `Math.round x`, the floor of `x + 1/2` (half-up
rounding). -/
def jsRound (q : ℚ) : Int := ratFloor (q + 1 / 2)

/-- The purge target of `Cache.prototype._purge` (source lines 162–168):
`Math.round(this._maxSize & this._fillFactor)` — a *bitwise AND*, whose
`ToInt32` conversion truncates the fill factor `0.75` to `0`, so the
bounded branch always yields `0` — overridden by
`this.size() * this._fillFactor` when `_maxSize < 0`. -/
def Cache.purgeSize (s : CacheState) : ℚ :=
  let bounded : ℚ := (jsRound ((Int.land s.maxSize (jsToInt32 Cache.fillFactor) : Int) : ℚ) : ℚ)
  if s.maxSize < 0 then (Cache.size s : ℚ) * Cache.fillFactor else bounded

/-- The intended purge target named by the specification:
`round(maxSize * fillFactor)` (multiplication, not bitwise AND).
Modelled from the spec for comparison with `Cache.purgeSize`. -/
def specPurgeSize (maxSize : Int) : Int :=
  jsRound ((maxSize : ℚ) * Cache.fillFactor)

/-- The eviction comparator of `_purge` (source lines 183–189): when the
priorities differ, sort by descending priority (`b.priority -
a.priority`); otherwise by descending `lastAccessed`.  When a priority
is `undefined` (see `Cache.Priority.NORMAL`) the differing-priorities
branch computes `NaN`; ECMAScript leaves the resulting order
implementation-defined and engines treat it as `0` (no reordering),
which is how it is modelled — no claim instantiates that case. -/
def Cache.cmpItems (a b : CacheItem) : Int :=
  if a.priority ≠ b.priority then
    match b.priority, a.priority with
    | some pb, some pa => (pb : Int) - (pa : Int)
    | _, _ => 0
  else (b.lastAccessed : Int) - (a.lastAccessed : Int)

/-- Insert `x` into a list sorted by the comparator, before the first
element that does not strictly precede it (stable insertion, matching
the stable `Array.prototype.sort` required since ES2019). -/
def insertByCmp (x : CacheItem) : List CacheItem → List CacheItem
  | [] => [x]
  | y :: ys =>
      if Cache.cmpItems y x < 0 then y :: insertByCmp x ys
      else x :: y :: ys

/-- Stable sort by the eviction comparator (`tmp.sort(...)`, source
lines 183–189). -/
def sortByCmp : List CacheItem → List CacheItem
  | [] => []
  | x :: xs => insertByCmp x (sortByCmp xs)

/-- The eviction loop of `_purge` (source lines 191–194): while the live
list is longer than `purgeSize`, pop the last (worst) candidate and
`removeItem` its key.  The loop pops one element per iteration, so the
list length is sufficient fuel (the condition is false at the empty
list whenever `purgeSize ≥ 0`, which holds on every reachable state). -/
def Cache.evictLoop : Nat → ℚ → List CacheItem → CacheState → CacheState
  | 0, _, _, s => s
  | Nat.succ n, ps, tmp, s =>
      if (tmp.length : ℚ) > ps then
        match tmp.getLast? with
        | some it =>
            Cache.evictLoop n ps tmp.dropLast (Cache.removeItem s it.key).2
        | none => s
      else s

/-- The scan phase of `_purge` (source lines 170–180): iterate over a
snapshot of the keys; remove expired items immediately (scheduling
their callbacks), collect the live ones into `tmp` in key order.  The
`none` case of the lookup is unreachable in the purge flow (the
snapshot holds the distinct keys present at its start and only the
current key is ever removed). -/
def Cache.purgeScan (now : Nat) :
    List String → CacheState → CacheState × List CacheItem
  | [], s => (s, [])
  | k :: rest, s =>
      match storageGet s.items k with
      | some item =>
          if Cache.isExpired item now then
            Cache.purgeScan now rest (Cache.removeItem s (JSValue.vStr k)).2
          else
            let r := Cache.purgeScan now rest s
            (r.1, item :: r.2)
      | none => Cache.purgeScan now rest s

/-- `Cache.prototype._purge` (source lines 162–198): compute the purge
target from the state at entry, scan all keys dropping expired items,
and if the live candidates still outnumber the target, sort them by the
eviction comparator and pop from the worst end until the target is
met. -/
def Cache.purge (s : CacheState) (now : Nat) : CacheState :=
  let ps := Cache.purgeSize s
  let keys := storageKeys s.items
  let r := Cache.purgeScan now keys s
  if (r.2.length : ℚ) > ps then
    let sorted := sortByCmp r.2
    Cache.evictLoop sorted.length ps sorted r.1
  else r.1

/-- The `attempted = true` branch of `Cache.prototype._addItem` (source
lines 200–213): one storage `set`; a failure is rethrown (lines
205–208).  Returns the outcome plus the number of `set` attempts and
purge passes performed. -/
def Cache.addItemAttempted {σ ε : Type} (trySet : σ → Except ε σ) (s : σ) :
    Except ε σ × Nat × Nat :=
  match trySet s with
  | Except.ok s' => (Except.ok s', 1, 0)
  | Except.error e => (Except.error e, 1, 0)

/-- `Cache.prototype._addItem` entered with `attempted` unset (source
lines 200–213): one storage `set`; on failure, run `_purge` once and
recurse with `attempted = true` (lines 209–211).  The storage backend's
fallible `set` is the abstract `trySet`, the purge pass the abstract
`purgeFn`.  Returns the outcome plus the number of `set` attempts and
purge passes performed. -/
def Cache.addItem {σ ε : Type} (trySet : σ → Except ε σ) (purgeFn : σ → σ)
    (s : σ) : Except ε σ × Nat × Nat :=
  match trySet s with
  | Except.ok s' => (Except.ok s', 1, 0)
  | Except.error _ =>
      let r := Cache.addItemAttempted trySet (purgeFn s)
      (r.1, r.2.1 + 1, r.2.2 + 1)

/-- The method suite a storage backend exposes to the engine: `none`
records that the backend's prototype defines no such method (calling it
would throw a `TypeError`). -/
structure StorageMethods (σ : Type) where
  get : Option (σ → String → Option CacheItem)
  set : Option (σ → String → CacheItem → σ)
  remove : Option (σ → String → Option CacheItem × σ)
  keys : Option (σ → List String)
  size : Option (σ → Nat)

/-- Whether a method suite implements the full storage contract of the
specification: `get`, `set`, `remove`, `keys`, and `size`. -/
def implementsStorageContract {σ : Type} (m : StorageMethods σ) : Bool :=
  m.get.isSome && m.set.isSome && m.remove.isSome && m.keys.isSome && m.size.isSome

/-- The state of a `Cache.Basic` instance (source lines 23–26): the item
map and the `_count` bookkeeping field. -/
structure BasicState where
  items : List (String × CacheItem)
  count : Int
  deriving Repr, DecidableEq, Inhabited

/-- The `Cache.Basic` constructor (source lines 23–26). -/
def Cache.Basic.mkState : BasicState := { items := [], count := 0 }

/-- `Cache.Basic.prototype.get` (source lines 28–30). -/
def Cache.Basic.get (st : BasicState) (k : String) : Option CacheItem :=
  storageGet st.items k

/-- `Cache.Basic.prototype.set` (source lines 32–37): increments
`_count` when the key was absent. -/
def Cache.Basic.set (st : BasicState) (k : String) (it : CacheItem) :
    BasicState :=
  { items := storageSet st.items k it
    count := if (Cache.Basic.get st k).isNone then st.count + 1 else st.count }

/-- `Cache.Basic.prototype.remove` (source lines 39–46): decrements
`_count` when the key was present. -/
def Cache.Basic.remove (st : BasicState) (k : String) :
    Option CacheItem × BasicState :=
  let r := storageRemove st.items k
  match r.1 with
  | some it => (some it, { items := r.2, count := st.count - 1 })
  | none => (none, { items := r.2, count := st.count })

/-- `Cache.Basic.prototype.keys` (source lines 48–54). -/
def Cache.Basic.keys (st : BasicState) : List String :=
  storageKeys st.items

/-- The method suite of `Cache.Basic` (source lines 23–54): the
prototype defines `get`, `set`, `remove`, and `keys`, but **no `size`
method** — even though the engine's `Cache.prototype.size` (lines
228–230) calls `this._storage.size()`. -/
def Cache.Basic.methods : StorageMethods BasicState :=
  { get := some Cache.Basic.get
    set := some (fun st k it => Cache.Basic.set st k it)
    remove := some Cache.Basic.remove
    keys := some Cache.Basic.keys
    size := none }

/-- `Cache.prototype.size` (source lines 228–230) over an arbitrary
backend method suite: `this._storage.size()` throws a `TypeError` when
the backend defines no `size` method. -/
def Cache.engineSize {σ : Type} (m : StorageMethods σ) (st : σ) :
    Except String Nat :=
  match m.size with
  | some f => Except.ok (f st)
  | none => Except.error "TypeError: this._storage.size is not a function"

/-- The state a successfully constructed `Cache.LocalStorage` instance
would carry (the key namespace string built on source line 57). -/
structure LocalStorageState where
  prefixVal : String
  deriving Repr, DecidableEq

/-- The `Cache.LocalStorage` constructor (source lines 56–60): line 57
assigns `this._prefix`; line 58 then reads `this.prefix_` — a property
that was never assigned, hence `undefined` — and calls `.replace` on
it, which throws a `TypeError`.  The constructor therefore always
throws; the `ok` branch is unreachable. -/
def Cache.LocalStorage.construct (ns : Option String) :
    Except String LocalStorageState :=
  let prefixVal := "cache-storage." ++ ns.getD "default" ++ "."
  let assignedFields : List (String × String) := [("_prefix", prefixVal)]
  match assignedFields.lookup "prefix_" with
  | some _ => Except.ok { prefixVal := prefixVal }
  | none => Except.error "TypeError: cannot read property replace of undefined"

/-! ## Concrete scenario states used by the claim evaluations -/

/-- The item stored for key `"a"` in the bounded-capacity scenario
(inserted at time 1, Normal priority, no expiration). -/
def itemA : CacheItem :=
  { key := JSValue.vStr "a", value := JSValue.vStr "va",
    expirationAbsolute := none, expirationSliding := none,
    priority := some Cache.Priority.Normal, callback := none, lastAccessed := 1 }

/-- The item stored for key `"b"` (inserted at time 2). -/
def itemB : CacheItem :=
  { key := JSValue.vStr "b", value := JSValue.vStr "vb",
    expirationAbsolute := none, expirationSliding := none,
    priority := some Cache.Priority.Normal, callback := none, lastAccessed := 2 }

/-- The item stored for key `"c"` (inserted at time 3). -/
def itemC : CacheItem :=
  { key := JSValue.vStr "c", value := JSValue.vStr "vc",
    expirationAbsolute := none, expirationSliding := none,
    priority := some Cache.Priority.Normal, callback := none, lastAccessed := 3 }

/-- A cache constructed with `maxSize = 2` after inserting keys `"a"`,
`"b"`, `"c"` at times 1, 2, 3 with Normal priority and no expiration:
the third insert exceeds the capacity and schedules a purge. -/
def boundedFillState : CacheState :=
  (Cache.setItem
    (Cache.setItem
      (Cache.setItem (Cache.init 2) 1 (JSValue.vStr "a") (JSValue.vStr "va")
        { priority := some Cache.Priority.Normal }).1
      2 (JSValue.vStr "b") (JSValue.vStr "vb")
      { priority := some Cache.Priority.Normal }).1
    3 (JSValue.vStr "c") (JSValue.vStr "vc")
    { priority := some Cache.Priority.Normal }).1

/-- A live Low-priority item, more recently accessed than its High
partner. -/
def lowItem : CacheItem :=
  { key := JSValue.vStr "lo", value := JSValue.vStr "x",
    expirationAbsolute := none, expirationSliding := none,
    priority := some Cache.Priority.Low, callback := none, lastAccessed := 5 }

/-- A live High-priority item, less recently accessed than its Low
partner. -/
def highItem : CacheItem :=
  { key := JSValue.vStr "hi", value := JSValue.vStr "y",
    expirationAbsolute := none, expirationSliding := none,
    priority := some Cache.Priority.High, callback := none, lastAccessed := 1 }

/-- An unbounded cache holding exactly the Low- and High-priority
items. -/
def twoItemState : CacheState :=
  { items := [("lo", lowItem), ("hi", highItem)], hits := 0, misses := 0,
    pendingPurges := 0, scheduledCallbacks := [], maxSize := -1 }

/-- A cache holding an entry under the property key `"null"` (stored by
`setItem` with the ordinary string key `"null"` and a removal
callback). -/
def nullKeyState : CacheState :=
  (Cache.setItem (Cache.init (-1)) 1 (JSValue.vStr "null") (JSValue.vStr "v1")
    { callback := some 7 }).1

/-- The C9 scenario with an immediately-expired second item: overwrite
key `"k"` with options carrying `expirationAbsolute = 5` (a time
already in the past when the subsequent read happens at time 10). -/
def staleReinsertState : CacheState :=
  (Cache.setItem
    (Cache.setItem (Cache.init (-1)) 1 (JSValue.vStr "k") (JSValue.vStr "one")
      { callback := some 1 }).1
    2 (JSValue.vStr "k") (JSValue.vStr "two")
    { expirationAbsolute := some 5, callback := some 2 }).1

/-! ## Helper lemmas about the storage model -/

@[simp]
theorem storageGet_set_self (l : List (String × CacheItem)) (k : String)
    (it : CacheItem) : storageGet (storageSet l k it) k = some it := by
  induction l with
  | nil => simp [storageSet, storageGet]
  | cons p rest ih =>
      obtain ⟨k', it'⟩ := p
      by_cases h : k' = k <;> simp [storageSet, storageGet, h, ih]

theorem storageRemove_set_of_get_none (l : List (String × CacheItem))
    (k : String) (it : CacheItem) (h : storageGet l k = none) :
    storageRemove (storageSet l k it) k = (some it, l) := by
  induction l with
  | nil => simp [storageSet, storageRemove]
  | cons p rest ih =>
      obtain ⟨k', it'⟩ := p
      by_cases hk : k' = k
      · simp [storageGet, hk] at h
      · simp only [storageGet, if_neg hk] at h
        simp [storageSet, storageRemove, hk, ih h]

theorem removeItem_snd_items (s : CacheState) (k : JSValue) :
    (Cache.removeItem s k).2.items = (storageRemove s.items (toPropKey k)).2 := by
  unfold Cache.removeItem
  cases h : (storageRemove s.items (toPropKey k)).1 with
  | none => simp [h]
  | some item => cases hc : item.callback <;> simp [h, hc]

theorem removeItem_snd_hits (s : CacheState) (k : JSValue) :
    (Cache.removeItem s k).2.hits = s.hits := by
  unfold Cache.removeItem
  cases h : (storageRemove s.items (toPropKey k)).1 with
  | none => simp [h]
  | some item => cases hc : item.callback <;> simp [h, hc]

theorem removeItem_snd_misses (s : CacheState) (k : JSValue) :
    (Cache.removeItem s k).2.misses = s.misses := by
  unfold Cache.removeItem
  cases h : (storageRemove s.items (toPropKey k)).1 with
  | none => simp [h]
  | some item => cases hc : item.callback <;> simp [h, hc]

theorem removeItem_snd_maxSize (s : CacheState) (k : JSValue) :
    (Cache.removeItem s k).2.maxSize = s.maxSize := by
  unfold Cache.removeItem
  cases h : (storageRemove s.items (toPropKey k)).1 with
  | none => simp [h]
  | some item => cases hc : item.callback <;> simp [h, hc]

theorem setItem_fst_hits (s : CacheState) (now : Nat) (k v : JSValue)
    (o : CacheOptions) : (Cache.setItem s now k v o).1.hits = s.hits := by
  unfold Cache.setItem
  cases hm : Cache.mkCacheItem now k v o with
  | none =>
      by_cases hg : (storageGet s.items (toPropKey k)).isSome <;>
        simp [hm, hg, removeItem_snd_hits]
  | some item =>
      by_cases hg : (storageGet s.items (toPropKey k)).isSome <;>
        · simp only [hm, hg, if_pos, if_neg, Bool.false_eq_true, if_false]
          split <;> simp [removeItem_snd_hits]

theorem setItem_fst_misses (s : CacheState) (now : Nat) (k v : JSValue)
    (o : CacheOptions) : (Cache.setItem s now k v o).1.misses = s.misses := by
  unfold Cache.setItem
  cases hm : Cache.mkCacheItem now k v o with
  | none =>
      by_cases hg : (storageGet s.items (toPropKey k)).isSome <;>
        simp [hm, hg, removeItem_snd_misses]
  | some item =>
      by_cases hg : (storageGet s.items (toPropKey k)).isSome <;>
        · simp only [hm, hg, if_pos, if_neg, Bool.false_eq_true, if_false]
          split <;> simp [removeItem_snd_misses]

theorem clear_foldl_hits (ks : List String) :
    ∀ s : CacheState,
      ((ks.foldl (fun st k => (Cache.removeItem st (JSValue.vStr k)).2) s)).hits
        = s.hits := by
  induction ks with
  | nil => intro s; rfl
  | cons k rest ih =>
      intro s
      rw [List.foldl_cons, ih, removeItem_snd_hits]

theorem clear_foldl_misses (ks : List String) :
    ∀ s : CacheState,
      ((ks.foldl (fun st k => (Cache.removeItem st (JSValue.vStr k)).2) s)).misses
        = s.misses := by
  induction ks with
  | nil => intro s; rfl
  | cons k rest ih =>
      intro s
      rw [List.foldl_cons, ih, removeItem_snd_misses]

theorem purgeScan_fst_hits (now : Nat) (keys : List String) :
    ∀ s : CacheState, (Cache.purgeScan now keys s).1.hits = s.hits := by
  induction keys with
  | nil => intro s; rfl
  | cons k rest ih =>
      intro s
      unfold Cache.purgeScan
      cases hg : storageGet s.items k with
      | none => simp [hg, ih]
      | some item =>
          by_cases he : Cache.isExpired item now <;>
            simp [hg, he, ih, removeItem_snd_hits]

theorem purgeScan_fst_misses (now : Nat) (keys : List String) :
    ∀ s : CacheState, (Cache.purgeScan now keys s).1.misses = s.misses := by
  induction keys with
  | nil => intro s; rfl
  | cons k rest ih =>
      intro s
      unfold Cache.purgeScan
      cases hg : storageGet s.items k with
      | none => simp [hg, ih]
      | some item =>
          by_cases he : Cache.isExpired item now <;>
            simp [hg, he, ih, removeItem_snd_misses]

theorem evictLoop_hits (n : Nat) :
    ∀ (ps : ℚ) (tmp : List CacheItem) (s : CacheState),
      (Cache.evictLoop n ps tmp s).hits = s.hits := by
  induction n with
  | zero => intro ps tmp s; rfl
  | succ n ih =>
      intro ps tmp s
      unfold Cache.evictLoop
      by_cases hlen : (tmp.length : ℚ) > ps
      · cases hl : tmp.getLast? with
        | none => simp [hlen, hl]
        | some it => simp [hlen, hl, ih, removeItem_snd_hits]
      · simp [hlen]

theorem evictLoop_misses (n : Nat) :
    ∀ (ps : ℚ) (tmp : List CacheItem) (s : CacheState),
      (Cache.evictLoop n ps tmp s).misses = s.misses := by
  induction n with
  | zero => intro ps tmp s; rfl
  | succ n ih =>
      intro ps tmp s
      unfold Cache.evictLoop
      by_cases hlen : (tmp.length : ℚ) > ps
      · cases hl : tmp.getLast? with
        | none => simp [hlen, hl]
        | some it => simp [hlen, hl, ih, removeItem_snd_misses]
      · simp [hlen]

theorem purge_hits (s : CacheState) (now : Nat) :
    (Cache.purge s now).hits = s.hits := by
  unfold Cache.purge
  dsimp only
  split
  · rw [evictLoop_hits, purgeScan_fst_hits]
  · rw [purgeScan_fst_hits]

theorem purge_misses (s : CacheState) (now : Nat) :
    (Cache.purge s now).misses = s.misses := by
  unfold Cache.purge
  dsimp only
  split
  · rw [evictLoop_misses, purgeScan_fst_misses]
  · rw [purgeScan_fst_misses]

theorem mkCacheItem_of_truthy (now : Nat) (k v : JSValue) (o : CacheOptions)
    (hk : truthy k = true) :
    Cache.mkCacheItem now k v o =
      some { key := k, value := v,
             expirationAbsolute := o.expirationAbsolute,
             expirationSliding := o.expirationSliding,
             priority := o.priority,
             callback := o.callback, lastAccessed := now } := by
  unfold Cache.mkCacheItem
  rw [hk]
  cases hp : o.priority <;> simp [Cache.Priority.NORMAL, hp]

theorem isExpired_no_expiration (item : CacheItem) (now : Nat)
    (h1 : item.expirationAbsolute = none)
    (h2 : item.expirationSliding = none) :
    Cache.isExpired item now = false := by
  unfold Cache.isExpired
  rw [h1, h2]
  simp

theorem getItem_found_live (s : CacheState) (now : Nat) (k : JSValue)
    (item : CacheItem)
    (hget : storageGet s.items (toPropKey k) = some item)
    (hexp : Cache.isExpired item now = false) :
    (Cache.getItem s now k).1 = item.value
    ∧ (Cache.getItem s now k).2.items
        = storageSet s.items (toPropKey k) { item with lastAccessed := now }
    ∧ (Cache.getItem s now k).2.scheduledCallbacks = s.scheduledCallbacks
    ∧ (truthy item.value = true →
        (Cache.getItem s now k).2.hits = s.hits + 1
        ∧ (Cache.getItem s now k).2.misses = s.misses)
    ∧ (truthy item.value = false →
        (Cache.getItem s now k).2.misses = s.misses + 1
        ∧ (Cache.getItem s now k).2.hits = s.hits) := by
  unfold Cache.getItem
  dsimp only
  rw [hget]
  dsimp only
  rw [hexp]
  cases hv : truthy item.value <;> simp [hv]

theorem removeItem_of_remove_eq (s : CacheState) (k : JSValue)
    (item : CacheItem) (rest : List (String × CacheItem))
    (h : storageRemove s.items (toPropKey k) = (some item, rest)) :
    (Cache.removeItem s k).1 = item.value
    ∧ (Cache.removeItem s k).2.items = rest
    ∧ (Cache.removeItem s k).2.scheduledCallbacks
        = s.scheduledCallbacks ++
          (match item.callback with
           | some cb => [(cb, item.key, item.value)]
           | none => []) := by
  unfold Cache.removeItem
  rw [h]
  cases hc : item.callback <;> simp [hc]

theorem setItem_items_get (s : CacheState) (now : Nat) (k v : JSValue)
    (o : CacheOptions) (item : CacheItem)
    (hmk : Cache.mkCacheItem now k v o = some item)
    (hkey : toPropKey item.key = toPropKey k) :
    storageGet (Cache.setItem s now k v o).1.items (toPropKey k)
      = some item := by
  unfold Cache.setItem
  dsimp only
  rw [hmk]
  dsimp only
  by_cases hg : (storageGet s.items (toPropKey k)).isSome <;>
    · simp only [hg, Bool.false_eq_true, if_true, if_false]
      split <;> simp [hkey]

theorem setItem_prior (s : CacheState) (now : Nat) (k v : JSValue)
    (o : CacheOptions) (old item : CacheItem)
    (rest : List (String × CacheItem))
    (hget : storageGet s.items (toPropKey k) = some old)
    (hrem : storageRemove s.items (toPropKey k) = (some old, rest))
    (hmk : Cache.mkCacheItem now k v o = some item)
    (hkey : toPropKey item.key = toPropKey k) :
    (Cache.setItem s now k v o).1.items
      = storageSet rest (toPropKey k) item
    ∧ (Cache.setItem s now k v o).1.scheduledCallbacks
        = s.scheduledCallbacks ++
          (match old.callback with
           | some cb => [(cb, old.key, old.value)]
           | none => [])
    ∧ (Cache.setItem s now k v o).2 = none := by
  have hrm := removeItem_of_remove_eq s k old rest hrem
  unfold Cache.setItem
  dsimp only
  rw [hget]
  simp only [Option.isSome_some, if_true]
  rw [hmk]
  dsimp only
  rw [hkey, hrm.2.1]
  refine ⟨?_, ?_, rfl⟩
  · split <;> simp
  · split <;> simp [hrm.2.2]

theorem setItem_fresh (s : CacheState) (now : Nat) (k v : JSValue)
    (o : CacheOptions) (item : CacheItem)
    (hget : storageGet s.items (toPropKey k) = none)
    (hmk : Cache.mkCacheItem now k v o = some item)
    (hkey : toPropKey item.key = toPropKey k) :
    (Cache.setItem s now k v o).1.items
      = storageSet s.items (toPropKey k) item
    ∧ (Cache.setItem s now k v o).1.scheduledCallbacks
        = s.scheduledCallbacks
    ∧ (Cache.setItem s now k v o).2 = none := by
  unfold Cache.setItem
  dsimp only
  rw [hget]
  simp only [Option.isSome_none, Bool.false_eq_true, if_false]
  rw [hmk]
  dsimp only
  rw [hkey]
  refine ⟨?_, ?_, rfl⟩
  · split <;> simp
  · split <;> simp

/-! ## Claim theorems -/

/-- C10: only `getItem` ever modifies the hit/miss counters — `setItem`,
`removeItem`, `clear`, and the purge pass leave `getStats` exactly
unchanged, even when they remove items or schedule callbacks. -/
theorem stats_frame (s : CacheState) (now : Nat) (k v : JSValue)
    (o : CacheOptions) :
    Cache.getStats (Cache.setItem s now k v o).1 = Cache.getStats s
    ∧ Cache.getStats (Cache.removeItem s k).2 = Cache.getStats s
    ∧ Cache.getStats (Cache.clear s) = Cache.getStats s
    ∧ Cache.getStats (Cache.purge s now) = Cache.getStats s := by
  refine ⟨?_, ?_, ?_, ?_⟩
  · unfold Cache.getStats
    rw [setItem_fst_hits, setItem_fst_misses]
  · unfold Cache.getStats
    rw [removeItem_snd_hits, removeItem_snd_misses]
  · unfold Cache.getStats Cache.clear
    rw [clear_foldl_hits, clear_foldl_misses]
  · unfold Cache.getStats
    rw [purge_hits, purge_misses]

/-- C6: `_addItem` attempts the backend `set` once; on failure it runs
one purge pass and retries exactly once; a second failure is propagated
unchanged, and no third attempt (and no second purge) is ever made. -/
theorem addItem_retry_policy {σ ε : Type} (trySet : σ → Except ε σ)
    (purgeFn : σ → σ) (s : σ) :
    (Cache.addItem trySet purgeFn s).2.1 ≤ 2
    ∧ (∀ s', trySet s = Except.ok s' →
        Cache.addItem trySet purgeFn s = (Except.ok s', 1, 0))
    ∧ (∀ e s', trySet s = Except.error e → trySet (purgeFn s) = Except.ok s' →
        Cache.addItem trySet purgeFn s = (Except.ok s', 2, 1))
    ∧ (∀ e e', trySet s = Except.error e →
        trySet (purgeFn s) = Except.error e' →
        Cache.addItem trySet purgeFn s = (Except.error e', 2, 1)) := by
  unfold Cache.addItem Cache.addItemAttempted
  cases h1 : trySet s with
  | ok s' => simp [h1]
  | error e =>
      cases h2 : trySet (purgeFn s) with
      | ok s'' => simp [h1, h2]
      | error e' => simp [h1, h2]

/-- Witness for C6: a backend whose `set` always fails makes `_addItem`
perform exactly two attempts and one purge, and propagate the second
failure. -/
theorem addItem_retry_policy_witness :
    Cache.addItem (fun _ : Nat => (Except.error "full" : Except String Nat))
        id 0 = (Except.error "full", 2, 1) :=
  (addItem_retry_policy (fun _ : Nat => (Except.error "full" : Except String Nat))
      id 0).2.2.2 "full" "full" rfl rfl

/-- C7: an item is expired iff its absolute expiration is set and
strictly before the current time, or its sliding expiration is set and
`lastAccessed` plus the sliding duration (in seconds, i.e. `d * 1000`
milliseconds) is strictly before the current time; and whenever the
absolute expiration fires, the item is expired regardless of the
sliding option (which the source then never evaluates). -/
theorem isExpired_characterization (item : CacheItem) (now : Nat) :
    (Cache.isExpired item now = true ↔
      (∃ t, item.expirationAbsolute = some t ∧ t < now) ∨
      (∃ d, item.expirationSliding = some d ∧
        item.lastAccessed + d * 1000 < now))
    ∧ (∀ t, item.expirationAbsolute = some t → t < now →
        Cache.isExpired item now = true) := by
  unfold Cache.isExpired
  cases habs : item.expirationAbsolute with
  | none =>
      cases hsl : item.expirationSliding with
      | none => simp
      | some d => simp
  | some t =>
      cases hsl : item.expirationSliding with
      | none =>
          by_cases ht : t < now
          · simp [ht]
          · simp [ht]
            omega
      | some d =>
          by_cases ht : t < now <;> simp [ht]

/-- C2 (amended): for every valid key `k` and every *truthy* value `v`,
`getItem(k)` after `setItem(k, v, {})` returns `v`, updates the stored
item's `lastAccessed` to the current time, and increments `hits` (not
`misses`) by exactly one.  (As stated over *every* value the claim
fails: the source tests the truthiness of the returned value, so a
falsy stored value records a miss — see
`getItem_falsy_value_records_miss`.) -/
theorem getItem_after_setItem_truthy (s : CacheState) (n1 n2 : Nat)
    (k v : JSValue) (hk : truthy k = true) (hv : truthy v = true) :
    (Cache.getItem (Cache.setItem s n1 k v {}).1 n2 k).1 = v
    ∧ (Cache.getItem (Cache.setItem s n1 k v {}).1 n2 k).2.hits
        = (Cache.setItem s n1 k v {}).1.hits + 1
    ∧ (Cache.getItem (Cache.setItem s n1 k v {}).1 n2 k).2.misses
        = (Cache.setItem s n1 k v {}).1.misses
    ∧ storageGet (Cache.getItem (Cache.setItem s n1 k v {}).1 n2 k).2.items
        (toPropKey k)
      = some { key := k, value := v, expirationAbsolute := none,
               expirationSliding := none, priority := none,
               callback := none, lastAccessed := n2 } := by
  have hmk : Cache.mkCacheItem n1 k v {} =
      some { key := k, value := v, expirationAbsolute := none,
             expirationSliding := none, priority := none,
             callback := none, lastAccessed := n1 } :=
    mkCacheItem_of_truthy n1 k v {} hk
  have hget1 := setItem_items_get s n1 k v {} _ hmk rfl
  have hexp : Cache.isExpired
      { key := k, value := v, expirationAbsolute := none,
        expirationSliding := none, priority := none,
        callback := none, lastAccessed := n1 } n2 = false :=
    isExpired_no_expiration _ n2 rfl rfl
  have hfl := getItem_found_live (Cache.setItem s n1 k v {}).1 n2 k _ hget1 hexp
  refine ⟨hfl.1, (hfl.2.2.2.1 hv).1, (hfl.2.2.2.1 hv).2, ?_⟩
  rw [hfl.2.1]
  exact storageGet_set_self _ _ _

/-- Witness for C2: key `"k"`, value `5`, is returned and recorded as a
hit after insertion. -/
theorem getItem_after_setItem_truthy_witness :
    truthy (JSValue.vStr "k") = true
    ∧ truthy (JSValue.vNum 5) = true
    ∧ (Cache.getItem
        (Cache.setItem (Cache.init (-1)) 1 (JSValue.vStr "k")
          (JSValue.vNum 5) {}).1 2 (JSValue.vStr "k")).1 = JSValue.vNum 5 :=
  ⟨rfl, rfl,
    (getItem_after_setItem_truthy (Cache.init (-1)) 1 2 (JSValue.vStr "k")
      (JSValue.vNum 5) rfl rfl).1⟩

/-- Counterexample to C2 as stated: storing the (falsy) value `0` under
key `"k"` and reading it back returns `0` but records a *miss*, not a
hit — `getItem`'s accounting tests the truthiness of the returned value
(source line 106), not the presence of the item. -/
theorem getItem_falsy_value_records_miss :
    (Cache.getItem
      (Cache.setItem (Cache.init (-1)) 1 (JSValue.vStr "k")
        (JSValue.vNum 0) {}).1 2 (JSValue.vStr "k")).1 = JSValue.vNum 0
    ∧ (Cache.getItem
        (Cache.setItem (Cache.init (-1)) 1 (JSValue.vStr "k")
          (JSValue.vNum 0) {}).1 2 (JSValue.vStr "k")).2.hits = 0
    ∧ (Cache.getItem
        (Cache.setItem (Cache.init (-1)) 1 (JSValue.vStr "k")
          (JSValue.vNum 0) {}).1 2 (JSValue.vStr "k")).2.misses = 1 := by
  decide

/-- C9 (amended): for every valid key `k`, not previously present,
`setItem(k, v1, opts1)` followed by `setItem(k, v2, opts2)` — where
`opts2` carries no expiration, so the second item is live at read time —
schedules exactly one removal-callback invocation, namely `opts1`'s
callback (if present) with `(k, v1)`, and a subsequent `getItem(k)`
returns `v2` without scheduling anything further.  (Over arbitrary
`opts2` the claim fails: an already-expired second item makes `getItem`
return null and fire a second callback — see
`setItem_twice_counterexample`.) -/
theorem setItem_twice_single_callback (s : CacheState) (n1 n2 n3 : Nat)
    (k v1 v2 : JSValue) (o1 o2 : CacheOptions)
    (hk : truthy k = true)
    (hfresh : storageGet s.items (toPropKey k) = none)
    (habs : o2.expirationAbsolute = none)
    (hsl : o2.expirationSliding = none) :
    (Cache.setItem (Cache.setItem s n1 k v1 o1).1 n2 k v2 o2).1.scheduledCallbacks
      = s.scheduledCallbacks ++
        (match o1.callback with
         | some c => [(c, k, v1)]
         | none => [])
    ∧ (Cache.getItem
        (Cache.setItem (Cache.setItem s n1 k v1 o1).1 n2 k v2 o2).1 n3 k).1 = v2
    ∧ (Cache.getItem
        (Cache.setItem (Cache.setItem s n1 k v1 o1).1 n2 k v2 o2).1 n3 k).2.scheduledCallbacks
      = (Cache.setItem (Cache.setItem s n1 k v1 o1).1 n2 k v2 o2).1.scheduledCallbacks := by
  have h1 := setItem_fresh s n1 k v1 o1 _ hfresh
    (mkCacheItem_of_truthy n1 k v1 o1 hk) rfl
  have hget1 : storageGet (Cache.setItem s n1 k v1 o1).1.items (toPropKey k)
      = some { key := k, value := v1, expirationAbsolute := o1.expirationAbsolute,
               expirationSliding := o1.expirationSliding, priority := o1.priority,
               callback := o1.callback, lastAccessed := n1 } := by
    rw [h1.1]
    exact storageGet_set_self _ _ _
  have hrem : storageRemove (Cache.setItem s n1 k v1 o1).1.items (toPropKey k)
      = (some { key := k, value := v1, expirationAbsolute := o1.expirationAbsolute,
                expirationSliding := o1.expirationSliding, priority := o1.priority,
                callback := o1.callback, lastAccessed := n1 }, s.items) := by
    rw [h1.1]
    exact storageRemove_set_of_get_none s.items (toPropKey k) _ hfresh
  have h2 := setItem_prior (Cache.setItem s n1 k v1 o1).1 n2 k v2 o2 _ _ s.items
    hget1 hrem (mkCacheItem_of_truthy n2 k v2 o2 hk) rfl
  have hget2 : storageGet
      (Cache.setItem (Cache.setItem s n1 k v1 o1).1 n2 k v2 o2).1.items (toPropKey k)
      = some { key := k, value := v2, expirationAbsolute := o2.expirationAbsolute,
               expirationSliding := o2.expirationSliding, priority := o2.priority,
               callback := o2.callback, lastAccessed := n2 } := by
    rw [h2.1]
    exact storageGet_set_self _ _ _
  have hexp2 : Cache.isExpired
      { key := k, value := v2, expirationAbsolute := o2.expirationAbsolute,
        expirationSliding := o2.expirationSliding, priority := o2.priority,
        callback := o2.callback, lastAccessed := n2 } n3 = false :=
    isExpired_no_expiration _ n3 habs hsl
  have hfl := getItem_found_live
    (Cache.setItem (Cache.setItem s n1 k v1 o1).1 n2 k v2 o2).1 n3 k _ hget2 hexp2
  refine ⟨?_, hfl.1, hfl.2.2.1⟩
  rw [h2.2.1, h1.2.1]

/-- Witness for C9: overwriting key `"k"` (value `"one"`, callback 1)
with value `"two"` schedules exactly the first item's callback. -/
theorem setItem_twice_single_callback_witness :
    truthy (JSValue.vStr "k") = true ∧
    (Cache.setItem
      (Cache.setItem (Cache.init (-1)) 1 (JSValue.vStr "k")
        (JSValue.vStr "one") { callback := some 1 }).1
      2 (JSValue.vStr "k") (JSValue.vStr "two")
      { callback := some 2 }).1.scheduledCallbacks
      = [(1, JSValue.vStr "k", JSValue.vStr "one")] :=
  ⟨rfl,
    (setItem_twice_single_callback (Cache.init (-1)) 1 2 3 (JSValue.vStr "k")
      (JSValue.vStr "one") (JSValue.vStr "two") { callback := some 1 }
      { callback := some 2 } rfl rfl rfl rfl).1⟩

/-- Counterexample to C9 as stated: with `opts2` carrying an absolute
expiration already in the past at read time, the subsequent `getItem`
returns null (not `v2`) and a *second* removal callback (the second
item's) is scheduled. -/
theorem setItem_twice_counterexample :
    (Cache.getItem staleReinsertState 10 (JSValue.vStr "k")).1 = JSValue.vNull
    ∧ JSValue.vNull ≠ JSValue.vStr "two"
    ∧ (Cache.getItem staleReinsertState 10 (JSValue.vStr "k")).2.scheduledCallbacks
        = [(1, JSValue.vStr "k", JSValue.vStr "one"),
           (2, JSValue.vStr "k", JSValue.vStr "two")] := by
  decide

/-- Witness for C7: an item whose absolute expiration (5) has passed at
time 10 is expired, even though its sliding window has not. -/
theorem isExpired_characterization_witness :
    Cache.isExpired
      { key := JSValue.vStr "k", value := JSValue.vStr "v",
        expirationAbsolute := some 5, expirationSliding := some 1000000,
        priority := none, callback := none, lastAccessed := 0 } 10 = true :=
  (isExpired_characterization
      { key := JSValue.vStr "k", value := JSValue.vStr "v",
        expirationAbsolute := some 5, expirationSliding := some 1000000,
        priority := none, callback := none, lastAccessed := 0 } 10).2
    5 rfl (by decide)

theorem evictLoop_stop (n : Nat) (ps : ℚ) (tmp : List CacheItem)
    (s : CacheState) (h : ¬ ((tmp.length : ℚ) > ps)) :
    Cache.evictLoop n ps tmp s = s := by
  cases n with
  | zero => rfl
  | succ n => unfold Cache.evictLoop; rw [if_neg h]

theorem evictLoop_step (n : Nat) (ps : ℚ) (tmp : List CacheItem)
    (s : CacheState) (a : CacheItem)
    (h : (tmp.length : ℚ) > ps) (hl : tmp.getLast? = some a) :
    Cache.evictLoop (n + 1) ps tmp s
      = Cache.evictLoop n ps tmp.dropLast (Cache.removeItem s a.key).2 := by
  unfold Cache.evictLoop
  rw [if_pos h, hl]
  cases n <;> rfl

theorem purge_two_live (s : CacheState) (now : Nat) (k1 k2 : String)
    (it1 it2 : CacheItem)
    (hitems : s.items = [(k1, it1), (k2, it2)])
    (hk1 : toPropKey it1.key = k1) (hk2 : toPropKey it2.key = k2)
    (hne : k1 ≠ k2)
    (hmax : s.maxSize < 0)
    (he1 : Cache.isExpired it1 now = false)
    (he2 : Cache.isExpired it2 now = false) :
    (Cache.cmpItems it2 it1 < 0 → (Cache.purge s now).items = [(k2, it2)])
    ∧ (¬ Cache.cmpItems it2 it1 < 0 → (Cache.purge s now).items = [(k1, it1)]) := by
  have hg1 : storageGet s.items k1 = some it1 := by
    rw [hitems]; simp [storageGet]
  have hg2 : storageGet s.items k2 = some it2 := by
    rw [hitems]; simp [storageGet, hne]
  have hkeys : storageKeys s.items = [k1, k2] := by
    rw [hitems]; rfl
  have hscan : Cache.purgeScan now [k1, k2] s = (s, [it1, it2]) := by
    simp [Cache.purgeScan, hg1, hg2, he1, he2]
  have hps : Cache.purgeSize s = 3 / 2 := by
    unfold Cache.purgeSize Cache.size
    rw [if_pos hmax, hitems]
    norm_num [Cache.fillFactor]
  have hcond : ((([it1, it2] : List CacheItem).length : ℚ)) > 3 / 2 := by
    norm_num
  constructor
  · intro hc
    have hsort : sortByCmp [it1, it2] = [it2, it1] := by
      simp [sortByCmp, insertByCmp, hc]
    unfold Cache.purge
    dsimp only
    rw [hkeys, hscan, hps]
    dsimp only
    rw [if_pos hcond, hsort]
    rw [show ([it2, it1] : List CacheItem).length = 1 + 1 from rfl]
    rw [evictLoop_step 1 (3 / 2) [it2, it1] s it1 (by norm_num) rfl]
    rw [show ([it2, it1] : List CacheItem).dropLast = [it2] from rfl]
    rw [evictLoop_stop 1 (3 / 2) [it2] _ (by norm_num)]
    rw [removeItem_snd_items, hk1, hitems]
    simp [storageRemove]
  · intro hc
    have hsort : sortByCmp [it1, it2] = [it1, it2] := by
      simp [sortByCmp, insertByCmp, hc]
    unfold Cache.purge
    dsimp only
    rw [hkeys, hscan, hps]
    dsimp only
    rw [if_pos hcond, hsort]
    rw [show ([it1, it2] : List CacheItem).length = 1 + 1 from rfl]
    rw [evictLoop_step 1 (3 / 2) [it1, it2] s it2 (by norm_num) rfl]
    rw [show ([it1, it2] : List CacheItem).dropLast = [it1] from rfl]
    rw [evictLoop_stop 1 (3 / 2) [it1] _ (by norm_num)]
    rw [removeItem_snd_items, hk2, hitems]
    simp [storageRemove, hne]

/-- C8: when a purge must evict among two live (non-expired) candidates
in an unbounded cache (so the purge target is `2 * 0.75 = 1.5` and
exactly one eviction happens), the item with the *lower* priority value
is the one evicted, whichever slot it occupies; and among equal
priorities, the less recently accessed item is evicted, i.e. the more
recently accessed one is kept longer.  In particular, with priorities
Low and High, the Low-priority item is evicted. -/
theorem purge_priority_ordering (s : CacheState) (now : Nat) (k1 k2 : String)
    (it1 it2 : CacheItem)
    (hitems : s.items = [(k1, it1), (k2, it2)])
    (hk1 : toPropKey it1.key = k1) (hk2 : toPropKey it2.key = k2)
    (hne : k1 ≠ k2)
    (hmax : s.maxSize < 0)
    (he1 : Cache.isExpired it1 now = false)
    (he2 : Cache.isExpired it2 now = false) :
    (∀ p1 p2, it1.priority = some p1 → it2.priority = some p2 → p1 < p2 →
      (Cache.purge s now).items = [(k2, it2)])
    ∧ (∀ p1 p2, it1.priority = some p1 → it2.priority = some p2 → p2 < p1 →
      (Cache.purge s now).items = [(k1, it1)])
    ∧ (it1.priority = it2.priority → it1.lastAccessed < it2.lastAccessed →
      (Cache.purge s now).items = [(k2, it2)])
    ∧ (it1.priority = it2.priority → it2.lastAccessed < it1.lastAccessed →
      (Cache.purge s now).items = [(k1, it1)]) := by
  have H := purge_two_live s now k1 k2 it1 it2 hitems hk1 hk2 hne hmax he1 he2
  refine ⟨?_, ?_, ?_, ?_⟩
  · intro p1 p2 hp1 hp2 hlt
    refine H.1 ?_
    have hnep : ¬ (p2 = p1) := by omega
    unfold Cache.cmpItems
    rw [hp1, hp2]
    simp [hnep]
    omega
  · intro p1 p2 hp1 hp2 hlt
    refine H.2 ?_
    have hnep : ¬ (p2 = p1) := by omega
    unfold Cache.cmpItems
    rw [hp1, hp2]
    simp [hnep]
    omega
  · intro hp hlt
    refine H.1 ?_
    unfold Cache.cmpItems
    rw [hp]
    simp
    omega
  · intro hp hlt
    refine H.2 ?_
    unfold Cache.cmpItems
    rw [hp]
    simp
    omega

/-- Witness for C8: purging the two-item cache holding a Low-priority
and a High-priority live item evicts the Low one (even though it was
accessed more recently), keeping exactly the High item. -/
theorem purge_priority_ordering_witness :
    (Cache.purge twoItemState 10).items = [("hi", highItem)] :=
  (purge_priority_ordering twoItemState 10 "lo" "hi" lowItem highItem rfl rfl
      rfl (by decide) (by decide) rfl rfl).1
    Cache.Priority.Low Cache.Priority.High rfl rfl (by decide)

theorem jsToInt32_fillFactor : jsToInt32 Cache.fillFactor = 0 := by
  have h34 : Cache.fillFactor = Rat.divInt 3 4 := by
    unfold Cache.fillFactor
    rw [Rat.divInt_eq_div]
    norm_num
  unfold jsToInt32 ratFloor
  rw [h34]
  decide

theorem jsRound_zero : jsRound 0 = 0 := by
  have h12 : (0 : ℚ) + 1 / 2 = Rat.divInt 1 2 := by
    rw [Rat.divInt_eq_div]
    norm_num
  unfold jsRound ratFloor
  rw [h12]
  decide

theorem purgeSize_boundedFillState : Cache.purgeSize boundedFillState = 0 := by
  unfold Cache.purgeSize
  rw [show boundedFillState.maxSize = 2 from by decide]
  rw [if_neg (by decide : ¬ ((2 : Int) < 0))]
  rw [jsToInt32_fillFactor]
  rw [show Int.land 2 0 = 0 from by decide]
  rw [Int.cast_zero, jsRound_zero, Int.cast_zero]

/-- C1 (code defect): in the `maxSize = 2`, insert-"a","b","c" scenario
the third insert does schedule a purge, but the purge target is
`Math.round(maxSize & fillFactor)` — a bitwise AND whose `ToInt32`
conversion truncates `0.75` to `0` — so `purgeSize = 0` and the
deferred purge evicts **all three** keys, not just `"a"`.  The
specification's intended target `round(maxSize * 0.75)` equals 2, which
would have retained 2 keys.  (Separately, with the default
`Cache.Basic` backend the capacity check itself throws, because
`Cache.Basic` has no `size` method — see
`shipped_backends_break_contract`.) -/
theorem purge_bounded_evicts_everything :
    boundedFillState.pendingPurges = 1
    ∧ (Cache.purge boundedFillState 4).items = []
    ∧ Cache.purgeSize boundedFillState = 0
    ∧ specPurgeSize 2 = 2 := by
  refine ⟨by decide, ?_, purgeSize_boundedFillState,
    by norm_num [specPurgeSize, jsRound, ratFloor, Cache.fillFactor]⟩
  unfold Cache.purge
  dsimp only
  rw [purgeSize_boundedFillState]
  rw [show storageKeys boundedFillState.items = ["a", "b", "c"] from by decide]
  rw [show Cache.purgeScan 4 ["a", "b", "c"] boundedFillState
      = (boundedFillState, [itemA, itemB, itemC]) from by decide]
  dsimp only
  rw [if_pos (by norm_num :
    ((([itemA, itemB, itemC] : List CacheItem).length : ℚ)) > 0)]
  rw [show sortByCmp [itemA, itemB, itemC] = [itemC, itemB, itemA] from by decide]
  rw [show ([itemC, itemB, itemA] : List CacheItem).length = 2 + 1 from rfl]
  rw [evictLoop_step 2 0 [itemC, itemB, itemA] boundedFillState itemA
    (by norm_num) rfl]
  rw [show ([itemC, itemB, itemA] : List CacheItem).dropLast = [itemC, itemB]
    from rfl]
  rw [show (2 : Nat) = 1 + 1 from rfl]
  rw [evictLoop_step 1 0 [itemC, itemB] _ itemB (by norm_num) rfl]
  rw [show ([itemC, itemB] : List CacheItem).dropLast = [itemC] from rfl]
  rw [show (1 : Nat) = 0 + 1 from rfl]
  rw [evictLoop_step 0 0 [itemC] _ itemC (by norm_num) rfl]
  rw [show ([itemC] : List CacheItem).dropLast = ([] : List CacheItem) from rfl]
  decide

/-- C3 (code defect): an item stored with an options bag lacking a
priority gets priority `undefined`, not Normal = 2: the fallback on
source line 128 assigns `Cache.Priority.NORMAL`, but the enum (lines
17–21) declares `Normal`, not `NORMAL`, so the property access yields
`undefined`. -/
theorem default_priority_is_undefined :
    (storageGet (Cache.setItem (Cache.init (-1)) 1 (JSValue.vStr "k")
        (JSValue.vStr "v") {}).1.items "k").map CacheItem.priority
      = some Cache.Priority.NORMAL
    ∧ Cache.Priority.NORMAL = none
    ∧ Cache.Priority.Normal = 2
    ∧ (storageGet (Cache.setItem (Cache.init (-1)) 1 (JSValue.vStr "k")
        (JSValue.vStr "v") {}).1.items "k").map CacheItem.priority
      ≠ some (some Cache.Priority.Normal) := by
  decide

/-- C4 (code defect): neither shipped backend satisfies the full
storage contract.  `Cache.Basic` defines `get`, `set`, `remove`, and
`keys` but **no `size` method**, so the engine's `size()` — and hence
the post-insert capacity check — throws a `TypeError` on the default
backend; and the `Cache.LocalStorage` constructor always throws,
because line 58 reads `this.prefix_`, a property never assigned (line
57 assigns `this._prefix`), and calls `.replace` on `undefined`. -/
theorem shipped_backends_break_contract :
    implementsStorageContract Cache.Basic.methods = false
    ∧ Cache.Basic.methods.size = none
    ∧ Cache.Basic.methods.get.isSome = true
    ∧ Cache.Basic.methods.set.isSome = true
    ∧ Cache.Basic.methods.remove.isSome = true
    ∧ Cache.Basic.methods.keys.isSome = true
    ∧ Cache.engineSize Cache.Basic.methods Cache.Basic.mkState
        = Except.error "TypeError: this._storage.size is not a function"
    ∧ Cache.LocalStorage.construct none
        = Except.error "TypeError: cannot read property replace of undefined" :=
  ⟨rfl, rfl, rfl, rfl, rfl, rfl, rfl, rfl⟩

/-- C5 (code defect): `setItem` removes the prior entry (source line
136) *before* the new item's key is validated (line 138, inside the
`CacheItem` constructor), so a failing call can leave partial state.
With an entry stored under the property key `"null"`, the call
`setItem(null, v2, {})` coerces `null` to that same property key,
removes the old entry and schedules its removal callback, and only then
throws the invalid-key error: the backend is mutated by the failing
call, contradicting the claim that it is left exactly as it was. -/
theorem invalid_key_setItem_destroys_prior_entry :
    (Cache.setItem nullKeyState 2 JSValue.vNull (JSValue.vStr "v2") {}).2
      = some CacheError.invalidKey
    ∧ storageGet nullKeyState.items "null" ≠ none
    ∧ (Cache.setItem nullKeyState 2 JSValue.vNull (JSValue.vStr "v2") {}).1.items = []
    ∧ (Cache.setItem nullKeyState 2 JSValue.vNull (JSValue.vStr "v2") {}).1.scheduledCallbacks
        = [(7, JSValue.vStr "null", JSValue.vStr "v1")] := by
  decide

end Packet
